import Mathlib

/-!
Shallow embedding of the rust-proxy core: the BufferedConnection byte-queue
operations (src/net/conn.rs), the bidirectional Forwarder loop
(src/proxy/forward.rs), the SOCKS5 handshake, sub-negotiation and request
handling (src/proxy/socks5.rs), the HTTP proxy authentication and header
forwarding (src/proxy/http.rs), and the credential manager
(src/common/auth.rs). Bytes are modelled as Nat (values 0..255), a peer's
wire input as the list of bytes it sends before EOF, and socket reads as the
successive chunks in which those bytes arrive. Each modelled operation
returns the bytes it wrote to its peer together with its outcome, so that
reply framing and error propagation can be stated exactly.
-/

namespace RustProxy

/-- Outcome of `bcrypt::verify` (`Result<bool, BcryptError>`); the bcrypt
crate is an external collaborator, so the verifier is kept as a parameter of
`AuthManager.authenticate`. -/
inductive VerifyOutcome where
  | ok (b : Bool)
  | err
deriving DecidableEq, Repr

/-- `AuthError` from src/common/auth.rs. -/
inductive AuthError where
  | hashingError
  | authenticationFailed
deriving DecidableEq, Repr

/-- Outcome of `AuthManager::authenticate` (`Result<bool, AuthError>`). -/
inductive AuthOutcome where
  | ok (b : Bool)
  | err (e : AuthError)
deriving DecidableEq, Repr

/-- `AuthManager` (src/common/auth.rs): a map from usernames to the stored
(bcrypt-hashed) passwords, both kept as byte lists. The `HashMap` is
modelled as an association list with unique keys, as built by `new`. -/
structure AuthManager where
  users : List (List Nat × List Nat)
deriving DecidableEq, Repr

/-- `HashMap::get` on the users map: return the stored entry of the exact
key, if present. -/
def lookupUser : List (List Nat × List Nat) → List Nat → Option (List Nat)
  | [], _ => none
  | (u, h) :: t, name => if u = name then some h else lookupUser t name

/-- `AuthManager::has_users` (src/common/auth.rs line 36). -/
def AuthManager.has_users (m : AuthManager) : Bool :=
  !m.users.isEmpty

/-- `AuthManager::authenticate` (src/common/auth.rs lines 41-53): unknown
username is an error; for a known username the stored hash is checked with
`verify`, whose own error becomes `HashingError` via `?`, a verified
password yields `Ok(true)`, and a failed verification yields
`Err(AuthenticationFailed)` - not `Ok(false)`. -/
def AuthManager.authenticate (verify : List Nat → List Nat → VerifyOutcome)
    (m : AuthManager) (username password : List Nat) : AuthOutcome :=
  match lookupUser m.users username with
  | some hashed =>
    match verify password hashed with
    | .err => .err .hashingError
    | .ok true => .ok true
    | .ok false => .err .authenticationFailed
  | none => .err .authenticationFailed

/-- Stand-in for bcrypt verification in concrete examples: the stored value
is compared for equality with the offered password (bcrypt's contract
`verify p (hash p) = true` with no hashing collisions). -/
def verifyEq : List Nat → List Nat → VerifyOutcome :=
  fun p h => .ok (p == h)

/-- A credential store holding the single user "u" (byte 117) with password
"p" (byte 112), matching the spec's scenario configuration. -/
def mgrUP : AuthManager :=
  ⟨[([117], [112])]⟩

/-- A credential store with no users configured. -/
def mgrEmpty : AuthManager :=
  ⟨[]⟩

/-- The SOCKS5 credential check as the handlers call it, for concrete runs. -/
def chkUP : List Nat → List Nat → AuthOutcome :=
  AuthManager.authenticate verifyEq mgrUP

/-- The buffer state of `BufferedConnection` (src/net/conn.rs): the stream
itself is external, so only the byte queue and the configured slab size are
carried. -/
structure BufferedConnection where
  read_buffer : List Nat
  buffer_size : Nat
deriving DecidableEq, Repr

/-- `BufferedConnection::read_from_buffer` (src/net/conn.rs lines 36-44):
consume the first `len` queued bytes if that many are present. -/
def BufferedConnection.read_from_buffer (conn : BufferedConnection)
    (len : Nat) : Option (List Nat × BufferedConnection) :=
  if len ≤ conn.read_buffer.length then
    some (conn.read_buffer.take len,
          { conn with read_buffer := conn.read_buffer.drop len })
  else
    none

/-- `BufferedConnection::unread` (src/net/conn.rs lines 112-118): rebuild the
queue with `data` placed in front of the existing bytes. -/
def BufferedConnection.unread (conn : BufferedConnection)
    (data : List Nat) : BufferedConnection :=
  { conn with read_buffer := data ++ conn.read_buffer }

/-- One endpoint of the splice as `Forwarder::forward_between` sees it:
`buf` is the residual `read_buffer` left over from negotiation, and `chunks`
are the successive nonempty byte groups the socket will still yield on
`BufferedConnection::read` (src/net/conn.rs lines 27-33) before reporting
EOF with a zero read. -/
structure SpliceEnd where
  buf : List Nat
  chunks : List (List Nat)
deriving DecidableEq, Repr

/-- The loop body of one `select!` branch in `Forwarder::forward_between`
(src/proxy/forward.rs lines 18-41): `conn.read()` appends the next socket
chunk to `read_buffer` and returns its size `n` (with `none` for the
`Ok(0)` EOF case), then `read_from_buffer(n)` removes and forwards the
FIRST `n` queued bytes, which are the residual bytes before the bytes just
read. -/
def spliceRead : SpliceEnd → Option (List Nat × SpliceEnd)
  | ⟨_, []⟩ => none
  | ⟨buf, c :: cs⟩ =>
    some ((buf ++ c).take c.length, ⟨(buf ++ c).drop c.length, cs⟩)

/-- Which branch of the `select!` fires on a given loop iteration. -/
inductive Side where
  | one
  | two
deriving DecidableEq, Repr

/-- `Forwarder::forward_between` (src/proxy/forward.rs lines 10-71) along a
given interleaving of ready branches: every iteration runs one branch; a
zero-byte read (EOF) on EITHER connection makes the function return `Ok(())`
at once, ending both directions. The result collects (bytes delivered to
conn2, bytes delivered to conn1). The delivery `write_to_buffer` + `flush`
pair is declared nowhere under src/; modelled from the spec: BufferedConn
writes pass all bytes through to the underlying stream. -/
def Forwarder.forward_between :
    List Side → SpliceEnd → SpliceEnd → List Nat × List Nat
  | [], _, _ => ([], [])
  | .one :: sch, s1, s2 =>
    match spliceRead s1 with
    | none => ([], [])
    | some (out, s1') =>
      let r := Forwarder.forward_between sch s1' s2
      (out ++ r.1, r.2)
  | .two :: sch, s1, s2 =>
    match spliceRead s2 with
    | none => ([], [])
    | some (out, s2') =>
      let r := Forwarder.forward_between sch s1 s2'
      (r.1, out ++ r.2)

/-- Error kinds of `Socks5ProxyError` (src/proxy/socks5.rs lines 13-37). -/
inductive Socks5Err where
  | ioError
  | invalidVersion
  | noSupportedAuthMethod
  | invalidAuthMethod
  | authenticationFailed
  | connectionClosed
  | unsupportedCommand
  | invalidAddressType
  | connectTargetFailed
  | invalidUtf8
  | addressResolutionFailed
deriving DecidableEq, Repr

/-- Outcome of a SOCKS5 handler step: `Result<α, Socks5ProxyError>`. -/
inductive S5Result (α : Type) where
  | ok (a : α)
  | fail (e : Socks5Err)
deriving DecidableEq, Repr

/-- `Socks5Proxy::handshake` (src/proxy/socks5.rs lines 91-149) on the bytes
the client sends: read VER and NMETHODS, require VER==0x05, read the method
identifiers, pick 0x00 only when it is offered and no users are configured,
pick 0x02 only when it is offered and users ARE configured, otherwise 0xFF;
write `[0x05, selected]` and fail with NoSupportedAuthMethod when 0xFF was
selected. A stream that ends before the needed bytes is ConnectionClosed.
Result: (bytes written to the client, outcome carrying the method). -/
def Socks5Proxy.handshake (m : AuthManager) (input : List Nat) :
    List Nat × S5Result Nat :=
  match input with
  | ver :: nmethods :: rest =>
    if ver ≠ 5 then ([], .fail .invalidVersion)
    else if rest.length < nmethods then ([], .fail .connectionClosed)
    else
      let methods := rest.take nmethods
      let selected : Nat :=
        if methods.contains 0 && !m.has_users then 0
        else if methods.contains 2 && m.has_users then 2
        else 255
      ([5, selected],
       if selected = 255 then .fail .noSupportedAuthMethod else .ok selected)
  | _ => ([], .fail .connectionClosed)

/-- `Socks5Proxy::authenticate` (src/proxy/socks5.rs lines 152-245) on the
bytes the client sends after method 0x02 was selected, with the credential
check `chk` standing for `self.auth_manager.authenticate` as invoked there:
the code reads TWO leading bytes and requires them to be 0x01 and 0x02
(`auth_version` and `auth_method`), then ULEN, ULEN username bytes, PLEN and
PLEN password bytes; a chk error propagates through `?` as
AuthenticationFailed before any reply is written, `Ok(true)` writes
`[0x01, 0x00]`, and `Ok(false)` writes `[0x01, 0x01]` then fails. UTF-8
validation of the username and password is not modelled (both are kept as
byte lists). Result: (bytes written to the client, outcome). -/
def Socks5Proxy.authenticate (chk : List Nat → List Nat → AuthOutcome)
    (input : List Nat) : List Nat × S5Result Unit :=
  match input with
  | ver :: method :: rest =>
    if ver ≠ 1 ∨ method ≠ 2 then ([], .fail .invalidAuthMethod)
    else
      match rest with
      | ulen :: r2 =>
        if r2.length < ulen then ([], .fail .connectionClosed)
        else
          let uname := r2.take ulen
          match r2.drop ulen with
          | plen :: r3 =>
            if r3.length < plen then ([], .fail .connectionClosed)
            else
              let pass := r3.take plen
              match chk uname pass with
              | .err _ => ([], .fail .authenticationFailed)
              | .ok true => ([1, 0], .ok ())
              | .ok false => ([1, 1], .fail .authenticationFailed)
          | [] => ([], .fail .connectionClosed)
      | [] => ([], .fail .connectionClosed)
  | _ => ([], .fail .connectionClosed)

/-- The target address parsed by `Socks5Proxy::handle_request`; the DOMAIN
case keeps the raw name and port, since DNS resolution is an external
collaborator. -/
inductive TargetAddr where
  | ipv4 (a b c d : Nat) (port : Nat)
  | domain (name : List Nat) (port : Nat)
  | ipv6 (bytes : List Nat) (port : Nat)
deriving DecidableEq, Repr

/-- `Socks5Proxy::handle_request` (src/proxy/socks5.rs lines 248-393) on the
bytes the client sends: read VER, CMD, RSV, ATYP; require VER==0x05 and
CMD==0x01, then parse the address per ATYP. The function performs no
`conn.write` call at all, so the written-bytes component is `[]` on every
path. Result: (bytes written to the client, outcome carrying the target). -/
def Socks5Proxy.handle_request (input : List Nat) :
    List Nat × S5Result TargetAddr :=
  match input with
  | ver :: cmd :: _rsv :: atyp :: rest =>
    if ver ≠ 5 then ([], .fail .invalidVersion)
    else if cmd ≠ 1 then ([], .fail .unsupportedCommand)
    else
      match atyp with
      | 1 =>
        if rest.length < 6 then ([], .fail .connectionClosed)
        else
          match rest.take 6 with
          | [a, b, c, d, p1, p2] => ([], .ok (.ipv4 a b c d (p1 * 256 + p2)))
          | _ => ([], .fail .connectionClosed)
      | 3 =>
        match rest with
        | dlen :: r2 =>
          if r2.length < dlen + 2 then ([], .fail .connectionClosed)
          else
            let name := r2.take dlen
            match r2.drop dlen with
            | p1 :: p2 :: _ => ([], .ok (.domain name (p1 * 256 + p2)))
            | _ => ([], .fail .connectionClosed)
        | [] => ([], .fail .connectionClosed)
      | 4 =>
        if rest.length < 18 then ([], .fail .connectionClosed)
        else
          match (rest.drop 16).take 2 with
          | [p1, p2] => ([], .ok (.ipv6 (rest.take 16) (p1 * 256 + p2)))
          | _ => ([], .fail .connectionClosed)
      | _ => ([], .fail .invalidAddressType)
  | _ => ([], .fail .connectionClosed)

/-- The ten reply bytes the claim expects for an unsupported command:
VER=0x05, REP=0x07, RSV=0x00, ATYP=0x01, BND.ADDR=0.0.0.0, BND.PORT=0. -/
def socks5ReplyCmdNotSupported : List Nat :=
  [5, 7, 0, 1, 0, 0, 0, 0, 0, 0]

/-- ASCII whitespace, standing for the characters `str::trim` removes on the
header names and values of this proxy (all-ASCII wire data). -/
def isWsp (c : Char) : Bool :=
  c = ' ' || c = '\t' || c = '\n' || c = '\r'

/-- `str::trim` on the character list of a string. -/
def trimStr (s : String) : String :=
  String.mk ((((s.data.dropWhile isWsp).reverse).dropWhile isWsp).reverse)

/-- `str::to_lowercase` on the character list of a string (ASCII case map,
`Char.toLower`, which is what the proxy's header names exercise). -/
def lowerStr (s : String) : String :=
  String.mk (s.data.map Char.toLower)

/-- `str::starts_with` by character-list comparison. -/
def startsWithStr (s pre : String) : Bool :=
  pre.data.isPrefixOf s.data

/-- Remove the first `n` characters of a string. -/
def dropStr (s : String) (n : Nat) : String :=
  String.mk (s.data.drop n)

/-- One header line of `HttpProxy::parse_request` (src/proxy/http.rs lines
164-169): split at the FIRST `:`, lowercase and trim the name, trim the
value; a line with no colon is skipped (`none`). -/
def parseHeaderLine (line : String) : Option (String × String) :=
  match line.data.dropWhile (fun c => c != ':') with
  | [] => none
  | _ :: rest =>
    some (lowerStr (trimStr (String.mk (line.data.takeWhile (fun c => c != ':')))),
          trimStr (String.mk rest))

/-- `HashMap::insert` on the header map, as an association list: an existing
key keeps its position but gets the new value, a new key is appended. -/
def insertHeader (hs : List (String × String)) (k v : String) :
    List (String × String) :=
  match hs with
  | [] => [(k, v)]
  | (k', v') :: t =>
    if k' = k then (k, v) :: t else (k', v') :: insertHeader t k v

/-- The header map `HttpRequest.headers` built by `parse_request` from the
header lines received before the blank line (src/proxy/http.rs lines
116-170). -/
def parseHeaders (lines : List String) : List (String × String) :=
  lines.foldl
    (fun hs line =>
      match parseHeaderLine line with
      | some (k, v) => insertHeader hs k v
      | none => hs)
    []

/-- `HashMap::get` on the header map: value of the exact (lowercased) key. -/
def lookupHeader : List (String × String) → String → Option String
  | [], _ => none
  | (k, v) :: t, key => if k = key then some v else lookupHeader t key

/-- The header lines `HttpProxy::handle_http_request` writes upstream before
`Connection: close` (src/proxy/http.rs lines 324-330): every stored header
whose (lowercased) name does not start with `proxy-` and is not
`connection`, rendered as `name: value`. -/
def headerLines (hs : List (String × String)) : List String :=
  (hs.filter
      (fun p => !(startsWithStr p.1 "proxy-") && p.1 != "connection")).map
    (fun p => p.1 ++ ": " ++ p.2)

/-- The full upstream header block as lines: the kept headers followed by the
single appended `Connection: close` (src/proxy/http.rs lines 324-333). -/
def forwardedHeaderLines (hs : List (String × String)) : List String :=
  headerLines hs ++ ["Connection: close"]

/-- The value of a base64 alphabet character (STANDARD alphabet). -/
def b64Val (c : Char) : Option Nat :=
  if 'A' ≤ c ∧ c ≤ 'Z' then some (c.toNat - 65)
  else if 'a' ≤ c ∧ c ≤ 'z' then some (c.toNat - 71)
  else if '0' ≤ c ∧ c ≤ '9' then some (c.toNat + 4)
  else if c = '+' then some 62
  else if c = '/' then some 63
  else none

/-- STANDARD base64 decoding of `general_purpose::STANDARD.decode` on
4-character groups with `=` padding; any other shape is a decode error. -/
def b64DecodeChars : List Char → Option (List Nat)
  | [] => some []
  | a :: b :: c :: d :: rest =>
    match b64Val a, b64Val b with
    | some va, some vb =>
      if c = '=' ∧ d = '=' ∧ rest = [] then some [va * 4 + vb / 16]
      else
        match b64Val c with
        | some vc =>
          if d = '=' ∧ rest = [] then
            some [va * 4 + vb / 16, (vb % 16) * 16 + vc / 4]
          else
            match b64Val d, b64DecodeChars rest with
            | some vd, some tail =>
              some ([va * 4 + vb / 16, (vb % 16) * 16 + vc / 4,
                     (vc % 4) * 64 + vd] ++ tail)
            | _, _ => none
        | none => none
    | _, _ => none
  | _ => none

/-- Base64 decode of a string. -/
def base64Decode (s : String) : Option (List Nat) :=
  b64DecodeChars s.data

/-- Split the decoded credentials at the first `:` byte (58), as
`credentials.find(':')` does on the decoded UTF-8 string. -/
def splitColon (bytes : List Nat) : Option (List Nat × List Nat) :=
  if bytes.contains 58 then
    some (bytes.takeWhile (fun b => b != 58),
          (bytes.dropWhile (fun b => b != 58)).drop 1)
  else none

/-- The exact 407 response `HttpProxy::authenticate` writes (src/proxy/http.rs
lines 229-235), with its realm `WProxy`. -/
def proxyAuthResponse407 : String :=
  "HTTP/1.1 407 Proxy Authentication Required\r\n" ++
  "Proxy-Authenticate: Basic realm=\"WProxy\"\r\n" ++
  "Content-Length: 0\r\n" ++ "\r\n"

/-- How a run of `HttpProxy::authenticate` ends. -/
inductive HttpAuthOutcome where
  | success
  | proxyAuthRequired
  | earlyError
deriving DecidableEq, Repr

/-- `HttpProxy::authenticate` (src/proxy/http.rs lines 206-239) over the
parsed header map, with `chk` standing for `self.auth_manager.authenticate`:
the code looks up the key "authorization" (not "proxy-authorization"); when
that value has the `Basic ` form it base64-decodes the rest (a decode error
propagates through `?` with nothing written), splits at the first `:` and
calls `chk`, whose `Err` also propagates with nothing written; only the
fall-through cases (header missing, not `Basic`, no colon, or `Ok(false)`)
write the 407 response and fail with ProxyAuthRequired. UTF-8 validation of
the decoded credentials is not modelled (kept as bytes). Result: (bytes
written to the client as a string, outcome). -/
def HttpProxy.authenticate (chk : List Nat → List Nat → AuthOutcome)
    (headers : List (String × String)) : String × HttpAuthOutcome :=
  let viaHeader : Option (String × HttpAuthOutcome) :=
    match lookupHeader headers "authorization" with
    | some v =>
      if startsWithStr v "Basic " then
        match base64Decode (dropStr v 6) with
        | none => some ("", .earlyError)
        | some bytes =>
          match splitColon bytes with
          | some (u, p) =>
            match chk u p with
            | .err _ => some ("", .earlyError)
            | .ok true => some ("", .success)
            | .ok false => none
          | none => none
      else none
    | none => none
  match viaHeader with
  | some r => r
  | none => (proxyAuthResponse407, .proxyAuthRequired)

/-- The response `HttpProxy::handle_connect` writes on a successful dial
(src/proxy/http.rs lines 262-269), built exactly as the source chains it. -/
def connectEstablishedResponse : String :=
  "HTTP/1.1 200 Connection Established\r\n" ++
  "Content-Length: 0\r\n" ++ "\r\n"

end RustProxy

namespace RustProxy

/-- C9: pushback round-trip on the BufferedConnection byte queue. `unread b`
prepends `b` to `read_buffer`, and the next consuming read of `b.length`
bytes returns exactly `b` in order, leaving the previously buffered bytes
unchanged as the whole remaining queue. -/
theorem c9_unread_roundtrip (conn : BufferedConnection) (b : List Nat) :
    (conn.unread b).read_buffer = b ++ conn.read_buffer ∧
    (conn.unread b).read_from_buffer b.length = some (b, conn) := by
  refine ⟨rfl, ?_⟩
  have hle : b.length ≤ (b ++ conn.read_buffer).length := by
    simp [List.length_append]
  simp only [BufferedConnection.read_from_buffer, BufferedConnection.unread,
    hle, if_pos]
  simp [List.take_left, List.drop_left]

/-- C10: `AuthManager::authenticate` never returns `Ok(false)`, whatever the
bcrypt verifier does: it returns `Ok(true)` exactly on a known username
whose password verifies, and both an unknown username and a failed
verification yield `Err(AuthenticationFailed)`, so a caller using `?` exits
before any code following the call. -/
theorem c10_authenticate_never_ok_false
    (verify : List Nat → List Nat → VerifyOutcome) (m : AuthManager)
    (u p : List Nat) :
    AuthManager.authenticate verify m u p ≠ .ok false ∧
    (∀ h, lookupUser m.users u = some h → verify p h = .ok true →
      AuthManager.authenticate verify m u p = .ok true) ∧
    (lookupUser m.users u = none →
      AuthManager.authenticate verify m u p = .err .authenticationFailed) ∧
    (∀ h, lookupUser m.users u = some h → verify p h = .ok false →
      AuthManager.authenticate verify m u p = .err .authenticationFailed) := by
  unfold AuthManager.authenticate
  rcases hl : lookupUser m.users u with _ | hsh
  · refine ⟨by simp, ?_, ?_, ?_⟩
    · intro h hcontra
      simp [hl] at hcontra
    · intro _
      rfl
    · intro h hcontra
      simp [hl] at hcontra
  · rcases hv : verify p hsh with b | _
    · cases b
      · refine ⟨by simp [hv], ?_, ?_, ?_⟩
        · intro h hh hvv
          cases hh
          simp [hv] at hvv
        · intro hcontra
          simp at hcontra
        · intro h hh _
          cases hh
          simp [hv]
      · refine ⟨by simp [hv], ?_, ?_, ?_⟩
        · intro h hh _
          cases hh
          simp [hv]
        · intro hcontra
          simp at hcontra
        · intro h hh hvv
          cases hh
          simp [hv] at hvv
    · refine ⟨by simp [hv], ?_, ?_, ?_⟩
      · intro h hh hvv
        cases hh
        simp [hv] at hvv
      · intro hcontra
        simp at hcontra
      · intro h hh hvv
        cases hh
        simp [hv] at hvv

/-- C10 witness: with the scenario store {"u": "p"}, the right password
authenticates as `Ok(true)` and the wrong password "x" yields
`Err(AuthenticationFailed)`, by the general theorem at concrete inputs. -/
theorem c10_authenticate_never_ok_false_witness :
    AuthManager.authenticate verifyEq mgrUP [117] [112] = .ok true ∧
    AuthManager.authenticate verifyEq mgrUP [117] [120] =
      .err .authenticationFailed :=
  ⟨(c10_authenticate_never_ok_false verifyEq mgrUP [117] [112]).2.1
      [112] (by decide) (by decide),
   (c10_authenticate_never_ok_false verifyEq mgrUP [117] [120]).2.2.2
      [112] (by decide) (by decide)⟩

/-- C1: the splice loses residual negotiation bytes at EOF. With the byte
0x68 left in the client read_buffer after negotiation and the client socket
then reporting EOF, `Forwarder::forward_between` returns at once and the
target receives nothing, not the residual byte the claim promises. -/
theorem c1_splice_drops_residual_at_eof :
    Forwarder.forward_between [Side.one] ⟨[104], []⟩ ⟨[], []⟩ = ([], []) ∧
    ([] : List Nat) ≠ [104] :=
  ⟨rfl, by decide⟩

/-- C2: the first EOF on either side ends both directions. With conn1 at EOF
and conn2 holding one pending chunk [0x61], the interleaving that polls
conn1 first makes `forward_between` return with the pending byte undelivered
(no half-close, no draining of the opposite direction), although the
interleaving that polls conn2 first shows that byte was deliverable. -/
theorem c2_first_eof_ends_both_directions :
    Forwarder.forward_between [Side.one, Side.two] ⟨[], []⟩ ⟨[], [[97]]⟩ =
      ([], []) ∧
    Forwarder.forward_between [Side.two, Side.one] ⟨[], []⟩ ⟨[], [[97]]⟩ =
      ([], [97]) :=
  ⟨rfl, rfl⟩

/-- C3: the sub-negotiation rejects the RFC 1929 frame of scenario 2. On
client bytes 01 01 'u' 01 'p' with credentials {"u": "p"}, the handler
treats the second byte (ULEN = 1) as a method identifier, requires it to be
0x02, and fails with InvalidAuthMethod writing no reply at all - not the
01 00 success reply the claim states. -/
theorem c3_subnegotiation_rejects_rfc1929_frame :
    Socks5Proxy.authenticate chkUP [1, 1, 117, 1, 112] =
      ([], .fail .invalidAuthMethod) ∧
    (([], S5Result.fail .invalidAuthMethod) : List Nat × S5Result Unit) ≠
      ([1, 0], .ok ()) :=
  ⟨rfl, by decide⟩

/-- C4: the HTTP auth gate reads the wrong header and realm. A request
carrying a valid `Proxy-Authorization: Basic dTpw` ("u:p") under users
{"u": "p"} is still refused with the 407 (whose realm is `WProxy`, not
`Proxy`), because the code looks up "authorization"; and a wrong password
offered via `Authorization` propagates an error with NO 407 written, so the
mismatch case does not see the same response as the missing-header case. -/
theorem c4_auth_gate_reads_wrong_header :
    HttpProxy.authenticate chkUP
        (parseHeaders ["Proxy-Authorization: Basic dTpw"]) =
      (proxyAuthResponse407, .proxyAuthRequired) ∧
    proxyAuthResponse407 ≠
      "HTTP/1.1 407 Proxy Authentication Required\r\nProxy-Authenticate: Basic realm=\"Proxy\"\r\nContent-Length: 0\r\n\r\n" ∧
    HttpProxy.authenticate chkUP
        (parseHeaders ["Authorization: Basic dTp4"]) = ("", .earlyError) :=
  ⟨by decide, by decide, by decide⟩

/-- C5 counterexample: header casing is not preserved. The received header
`User-Agent: t` is stored lowercased and forwarded as `user-agent: t`; no
identically-cased `User-Agent` header appears on the upstream request. -/
theorem c5_counterexample :
    parseHeaders ["User-Agent: t", "Host: example.com"] =
      [("user-agent", "t"), ("host", "example.com")] ∧
    forwardedHeaderLines (parseHeaders ["User-Agent: t", "Host: example.com"]) =
      ["user-agent: t", "host: example.com", "Connection: close"] ∧
    "User-Agent: t" ∉
      forwardedHeaderLines
        (parseHeaders ["User-Agent: t", "Host: example.com"]) :=
  ⟨by decide, by decide, by decide⟩

/-- C5 amended: every stored header (lowercased name, duplicates collapsed)
that does not start with `proxy-` and is not `connection` is forwarded as
`name: value`; every forwarded header line other than the final
`Connection: close` arises from such a stored header; and exactly one
`Connection: close` is appended after them. -/
theorem c5_amended_lowercased_headers_forwarded (lines : List String)
    (n v : String) (hmem : (n, v) ∈ parseHeaders lines)
    (hp : startsWithStr n "proxy-" = false) (hc : n ≠ "connection") :
    (n ++ ": " ++ v) ∈ forwardedHeaderLines (parseHeaders lines) ∧
    (∀ line ∈ headerLines (parseHeaders lines), ∃ m w,
      (m, w) ∈ parseHeaders lines ∧ startsWithStr m "proxy-" = false ∧
      m ≠ "connection" ∧ line = m ++ ": " ++ w) ∧
    forwardedHeaderLines (parseHeaders lines) =
      headerLines (parseHeaders lines) ++ ["Connection: close"] := by
  refine ⟨?_, ?_, rfl⟩
  · apply List.mem_append_left
    refine List.mem_map.mpr ⟨(n, v), List.mem_filter.mpr ⟨hmem, ?_⟩, rfl⟩
    simp [hp, hc]
  · intro line hline
    rcases List.mem_map.mp hline with ⟨⟨m, w⟩, hmf, hfmt⟩
    rcases List.mem_filter.mp hmf with ⟨hmm, hpred⟩
    simp only [Bool.and_eq_true, Bool.not_eq_true', bne_iff_ne] at hpred
    exact ⟨m, w, hmm, hpred.1, hpred.2, hfmt.symm⟩

/-- C5 witness: the amended statement at the request whose sole header is
`Host: example.com`. -/
theorem c5_amended_witness :
    ("host" ++ ": " ++ "example.com") ∈
      forwardedHeaderLines (parseHeaders ["Host: example.com"]) :=
  (c5_amended_lowercased_headers_forwarded ["Host: example.com"] "host"
    "example.com" (by decide) (by decide) (by decide)).1

/-- C6 counterexample: with no users configured and a greeting offering only
method 0x02, the handler selects 0xFF (writing 05 FF and failing with
NoSupportedAuthMethod) instead of selecting 0x02 as the claim states,
because the 0x02 branch additionally requires `has_users()`. -/
theorem c6_counterexample :
    Socks5Proxy.handshake mgrEmpty [5, 1, 2] =
      ([5, 255], .fail .noSupportedAuthMethod) ∧
    (([5, 255], S5Result.fail .noSupportedAuthMethod) :
        List Nat × S5Result Nat) ≠ ([5, 2], .ok 2) :=
  ⟨rfl, by decide⟩

/-- C6 amended: when no users are configured the server selects 0x00 exactly
when 0x00 is offered; otherwise - even when 0x02 is offered - it writes
05 FF and fails with NoSupportedAuthMethod. -/
theorem c6_amended_no_users_selects_only_no_auth (m : AuthManager) (n : Nat)
    (rest : List Nat) (hu : m.has_users = false) (hlen : n ≤ rest.length) :
    ((rest.take n).contains 0 = true →
      Socks5Proxy.handshake m (5 :: n :: rest) = ([5, 0], .ok 0)) ∧
    ((rest.take n).contains 0 = false →
      Socks5Proxy.handshake m (5 :: n :: rest) =
        ([5, 255], .fail .noSupportedAuthMethod)) := by
  constructor
  · intro hc
    have hm : 0 ∈ rest.take n := by simpa using hc
    simp [Socks5Proxy.handshake, Nat.not_lt.mpr hlen, hm, hu]
  · intro hc
    have hm : 0 ∉ rest.take n := by simpa using hc
    simp [Socks5Proxy.handshake, Nat.not_lt.mpr hlen, hm, hu]

/-- C6 witness: the amended statement on the greeting 05 01 00 with an empty
credential store: the server selects method 0x00. -/
theorem c6_amended_witness :
    Socks5Proxy.handshake mgrEmpty [5, 1, 0] = ([5, 0], .ok 0) :=
  (c6_amended_no_users_selects_only_no_auth mgrEmpty 1 [0] (by decide)
    (by decide)).1 (by decide)

/-- C7 counterexample: on the well-formed request 05 02 00 01 7F 00 00 01
1F 90 (BIND to 127.0.0.1:8080) the handler fails with UnsupportedCommand
having written NO bytes: the 10-byte reply with REP 0x07 the claim states is
never sent. -/
theorem c7_counterexample :
    Socks5Proxy.handle_request [5, 2, 0, 1, 127, 0, 0, 1, 31, 144] =
      ([], .fail .unsupportedCommand) ∧
    ([] : List Nat) ≠ socks5ReplyCmdNotSupported :=
  ⟨rfl, by decide⟩

/-- C7 amended: for every request frame with VER=0x05 and CMD different from
0x01 the handler fails with UnsupportedCommand and writes no reply bytes
before the connection closes. -/
theorem c7_amended_no_reply_on_unsupported_command (cmd rsv atyp : Nat)
    (rest : List Nat) (h : cmd ≠ 1) :
    Socks5Proxy.handle_request (5 :: cmd :: rsv :: atyp :: rest) =
      ([], .fail .unsupportedCommand) := by
  simp [Socks5Proxy.handle_request, h]

/-- C7 witness: the amended statement on a UDP-ASSOCIATE request frame. -/
theorem c7_amended_witness :
    Socks5Proxy.handle_request [5, 3, 0, 1, 9, 9, 9, 9, 0, 80] =
      ([], .fail .unsupportedCommand) :=
  c7_amended_no_reply_on_unsupported_command 3 0 1 [9, 9, 9, 9, 0, 80]
    (by decide)

/-- C8 counterexample: the bytes written on a successful CONNECT are not
exactly `HTTP/1.1 200 Connection Established\r\n\r\n`: the handler inserts a
`Content-Length: 0` header line between the status line and the blank
line. -/
theorem c8_counterexample :
    connectEstablishedResponse ≠
      "HTTP/1.1 200 Connection Established\r\n\r\n" := by
  decide

/-- C8 amended: on a successful dial the CONNECT handler writes exactly
`HTTP/1.1 200 Connection Established\r\nContent-Length: 0\r\n\r\n` before
splicing the two streams. -/
theorem c8_amended_connect_response_bytes :
    connectEstablishedResponse =
      "HTTP/1.1 200 Connection Established\r\nContent-Length: 0\r\n\r\n" :=
  rfl

end RustProxy
